import Mathlib

/-!
Shallow embedding of the browser audio player's transport-control and
playlist logic, translated from `src/components/AudioPlayer.jsx`,
`src/App.jsx` and `src/lib/audio-utils.jsx`.

Pure state updates are modelled as Lean functions on explicit state
records.  React `useState` setters become record updates; the media
element's mutable properties (`currentTime`, `volume`) are a separate
record mutated alongside the component state.  The asynchronous
`audioRef.current.play()` call is modelled by a `PlayOutcome` parameter
(the promise either resolves or rejects); the `try/catch/finally` of
`handlePlay` is modelled by its net effect on the state in each outcome,
and the fact that the model is a total function into `PlayerState`
captures that no exception escapes the handler.  `Math.floor(Math.random()
* playlist.length)` is modelled by an explicit `shuffleDraw` parameter.
Fractional times and volumes are rationals (the source uses JS doubles
only through exact divisions by 100 and multiplications, so ℚ is faithful
on the inputs the claims quantify over).
-/

/-- A playlist entry, from `handleFileUpload` in `src/App.jsx`:
each track carries a generator-assigned id and a display name (the other
fields — url, file handle, duration, timestamp — play no role in the
claims' logic and are omitted from the record). -/
structure Track where
  id : Nat
  name : String
deriving DecidableEq

/-- The `useState` slices of the `AudioPlayer` component
(`src/components/AudioPlayer.jsx`, lines 15–23). -/
structure PlayerState where
  isPlaying : Bool
  currentTime : Rat
  duration : Rat
  volume : Rat
  isMuted : Bool
  isRepeat : Bool
  isShuffle : Bool
  isLoading : Bool
  lastError : Option String
deriving DecidableEq

/-- The mutable properties of the underlying `<audio>` element that the
component writes to (`audioRef.current.currentTime`,
`audioRef.current.volume`). -/
structure AudioElem where
  currentTime : Rat
  volume : Rat
deriving DecidableEq

/-- Outcome of the element's asynchronous `play()` command: the promise
either resolves or rejects. -/
inductive PlayOutcome where
  | success : PlayOutcome
  | failed : PlayOutcome
deriving DecidableEq

/-- The user-facing message set by the catch branch of `handlePlay`. -/
def playErrorMessage : String := "Failed to play audio. Please check the file format."

/-- Embedding of `handlePlay` (`AudioPlayer.jsx` lines 74–94), as its net effect on the
component state once the async function has run to completion.  If there
is no current track (`playlist[currentTrackIndex]` is undefined) it
returns early.  Otherwise: `setIsLoading(true)`, `setError(null)`, then
on resolution `setIsPlaying(true)`; on rejection the catch branch runs
`setError(playErrorMessage)`; the finally branch runs
`setIsLoading(false)` in both cases.  The catch branch does not write
`isPlaying`. -/
def handlePlay (playlist : List Track) (currentTrackIndex : Nat)
    (s : PlayerState) (res : PlayOutcome) : PlayerState :=
  if currentTrackIndex < playlist.length then
    match res with
    | .success => { s with isLoading := false, lastError := none, isPlaying := true }
    | .failed  => { s with isLoading := false, lastError := some playErrorMessage }
  else s

/-- Embedding of `handleSeek` (`AudioPlayer.jsx` lines 126–132): `value0` is the
slider's `value[0]` on the 0–100 scale; the handler computes
`(value[0] / 100) * duration`, writes it to the element's `currentTime`
and immediately mirrors it into the `currentTime` state. -/
def handleSeek (value0 : Rat) (s : PlayerState) (e : AudioElem) :
    PlayerState × AudioElem :=
  let newTime := value0 / 100 * s.duration
  ({ s with currentTime := newTime }, { e with currentTime := newTime })

/-- Embedding of `handleVolumeChange` (`AudioPlayer.jsx` lines 134–141): `value0` is
the slider's `value[0]` on the 0–100 scale; the handler sets the volume
state and the element volume to `value[0] / 100` and sets
`isMuted` to the result of `newVolume === 0`. -/
def handleVolumeChange (value0 : Rat) (s : PlayerState) (e : AudioElem) :
    PlayerState × AudioElem :=
  let newVolume := value0 / 100
  ({ s with volume := newVolume, isMuted := decide (newVolume = 0) },
   { e with volume := newVolume })

/-- Embedding of `toggleMute` (`AudioPlayer.jsx` lines 143–153): if muted, restores the
element volume from the remembered `volume` state and clears `isMuted`;
otherwise zeroes the element volume and sets `isMuted`, leaving the
`volume` state untouched. -/
def toggleMute (s : PlayerState) (e : AudioElem) : PlayerState × AudioElem :=
  if s.isMuted then
    ({ s with isMuted := false }, { e with volume := s.volume })
  else
    ({ s with isMuted := true }, { e with volume := 0 })

/-- Embedding of `handleNext` (`AudioPlayer.jsx` lines 155–166).  Returns the index
passed to the `onTrackChange` notification, or `none` when the handler
returns without firing it (empty playlist).  `shuffleDraw` stands for the
already-floored value of `Math.floor(Math.random() * playlist.length)`
used in the shuffle branch. -/
def handleNext (playlist : List Track) (currentTrackIndex : Nat)
    (isShuffle : Bool) (shuffleDraw : Nat) : Option Nat :=
  if playlist.length = 0 then none
  else if isShuffle then some shuffleDraw
  else some ((currentTrackIndex + 1) % playlist.length)

/-- Embedding of `handlePrevious` (`AudioPlayer.jsx` lines 168–179), analogous to
`handleNext`; the non-shuffle branch is
`currentTrackIndex === 0 ? playlist.length - 1 : currentTrackIndex - 1`. -/
def handlePrevious (playlist : List Track) (currentTrackIndex : Nat)
    (isShuffle : Bool) (shuffleDraw : Nat) : Option Nat :=
  if playlist.length = 0 then none
  else if isShuffle then some shuffleDraw
  else some (if currentTrackIndex = 0 then playlist.length - 1 else currentTrackIndex - 1)

/-- Embedding of `handleEnded` (`AudioPlayer.jsx` lines 181–188), the element's
end-of-media callback: with repeat on it zeroes the element's
`currentTime` and re-invokes `handlePlay` (firing no track-change
notification); otherwise it calls `handleNext`.  The result is the new
component state, the new element state, and the `onTrackChange`
notification (if any). -/
def handleEnded (playlist : List Track) (currentTrackIndex : Nat)
    (s : PlayerState) (e : AudioElem) (res : PlayOutcome) (shuffleDraw : Nat) :
    PlayerState × AudioElem × Option Nat :=
  if s.isRepeat then
    (handlePlay playlist currentTrackIndex s res, { e with currentTime := 0 }, none)
  else
    (s, e, handleNext playlist currentTrackIndex s.isShuffle shuffleDraw)

/-- C1: with shuffle disabled, for a playlist of length N ≥ 1 and current
index i < N, `handleNext` notifies index (i+1) mod N and `handlePrevious`
notifies index (i−1+N) mod N; for N = 1 both notify i again. -/
theorem next_prev_wraparound (playlist : List Track) (i : Nat) (d d' : Nat)
    (hN : 1 ≤ playlist.length) (hi : i < playlist.length) :
    handleNext playlist i false d = some ((i + 1) % playlist.length) ∧
    handlePrevious playlist i false d' =
      some ((i + playlist.length - 1) % playlist.length) ∧
    (playlist.length = 1 →
      handleNext playlist i false d = some i ∧
      handlePrevious playlist i false d' = some i) := by
  have hne : playlist.length ≠ 0 := by omega
  refine ⟨by simp [handleNext, hne], ?_, ?_⟩
  · simp only [handlePrevious, hne, if_false, if_neg hne, Bool.false_eq_true]
    rcases Nat.eq_zero_or_pos i with h0 | hpos
    · subst h0
      simp [Nat.mod_eq_of_lt (show playlist.length - 1 < playlist.length by omega)]
    · have : i + playlist.length - 1 = (i - 1) + playlist.length := by omega
      rw [this, if_neg (by omega), Nat.add_mod_right,
        Nat.mod_eq_of_lt (by omega)]
  · intro h1
    have hi0 : i = 0 := by omega
    subst hi0
    constructor
    · simp [handleNext, hne, h1]
    · simp [handlePrevious, hne, h1]

/-- Sample three-track playlist used by witnesses. -/
def samplePlaylist : List Track := [⟨0, "a"⟩, ⟨1, "b"⟩, ⟨2, "c"⟩]

/-- Witness for C1 at the concrete playlist of length 3 and index 1. -/
theorem next_prev_wraparound_witness :
    (1 ≤ samplePlaylist.length ∧ 1 < samplePlaylist.length) ∧
    handleNext samplePlaylist 1 false 0 = some 2 ∧
    handlePrevious samplePlaylist 1 false 0 = some 0 := by
  refine ⟨⟨by decide, by decide⟩, ?_, ?_⟩
  · have h := next_prev_wraparound samplePlaylist 1 0 0 (by decide) (by decide)
    exact h.1.trans (by decide)
  · have h := next_prev_wraparound samplePlaylist 1 0 0 (by decide) (by decide)
    exact h.2.1.trans (by decide)

/-- C9: on an empty playlist, `handleNext` and `handlePrevious` return
before firing any track-change notification, whatever the shuffle flag
and random draw. -/
theorem next_prev_empty_noop (i : Nat) (sh : Bool) (d d' : Nat) :
    handleNext [] i sh d = none ∧ handlePrevious [] i sh d' = none := by
  constructor <;> rfl

/-- A reachable player state with `isPlaying = true` (the state the
component is in when the end-of-media event fires with repeat on and
`handlePlay` is re-invoked). -/
def playingState : PlayerState :=
  { isPlaying := true, currentTime := 0, duration := 180, volume := 1,
    isMuted := false, isRepeat := true, isShuffle := false,
    isLoading := false, lastError := none }

/-- Counterexample to C2 as stated: with a current track present and
`isPlaying = true` on entry, a failed play command leaves
`isPlaying = true` — the catch branch never writes `isPlaying`, so the
claim "play() sets is-playing to false" fails at this state. -/
theorem play_failed_keeps_isPlaying_cex :
    (handlePlay samplePlaylist 0 playingState .failed).isPlaying = true := by
  decide

/-- C2 (amended): when a current track exists and the element's play
command fails, `handlePlay` leaves `isPlaying` unchanged (in particular
it stays false whenever play was entered from a non-playing state), sets
`isLoading` to false and populates the last-error message; the handler is
a total function into `PlayerState`, so the failure never propagates. -/
theorem play_failed_rolls_back (playlist : List Track) (i : Nat)
    (s : PlayerState) (h : i < playlist.length) :
    (handlePlay playlist i s .failed).isPlaying = s.isPlaying ∧
    (handlePlay playlist i s .failed).isLoading = false ∧
    (handlePlay playlist i s .failed).lastError = some playErrorMessage ∧
    (s.isPlaying = false → (handlePlay playlist i s .failed).isPlaying = false) := by
  simp [handlePlay, h]

/-- Witness for the amended C2 at a concrete non-playing state. -/
theorem play_failed_rolls_back_witness :
    (0 < samplePlaylist.length) ∧
    ((handlePlay samplePlaylist 0
        { playingState with isPlaying := false } .failed).isPlaying =
      ({ playingState with isPlaying := false } : PlayerState).isPlaying ∧
     (handlePlay samplePlaylist 0
        { playingState with isPlaying := false } .failed).isLoading = false ∧
     (handlePlay samplePlaylist 0
        { playingState with isPlaying := false } .failed).lastError =
       some playErrorMessage ∧
     (({ playingState with isPlaying := false } : PlayerState).isPlaying = false →
       (handlePlay samplePlaylist 0
         { playingState with isPlaying := false } .failed).isPlaying = false)) :=
  ⟨by decide,
   play_failed_rolls_back samplePlaylist 0
     { playingState with isPlaying := false } (by decide)⟩

/-- C3: from an unmuted state, toggling mute twice restores the element
volume to exactly the remembered volume and clears `isMuted`; this holds
for every volume in [0,1], including volume 0. -/
theorem toggleMute_roundtrip (s : PlayerState) (e : AudioElem)
    (hm : s.isMuted = false) (h0 : 0 ≤ s.volume) (h1 : s.volume ≤ 1) :
    (toggleMute (toggleMute s e).1 (toggleMute s e).2).2.volume = s.volume ∧
    (toggleMute (toggleMute s e).1 (toggleMute s e).2).1.isMuted = false := by
  simp [toggleMute, hm]

/-- A concrete unmuted player state with volume 7/10, used by witnesses. -/
def unmutedState : PlayerState :=
  { isPlaying := false, currentTime := 0, duration := 180, volume := 7/10,
    isMuted := false, isRepeat := false, isShuffle := false,
    isLoading := false, lastError := none }

/-- Witness for C3 at a concrete unmuted state with volume 7/10 (and the
boundary volume 0 is covered by the theorem's quantification). -/
theorem toggleMute_roundtrip_witness :
    (unmutedState.isMuted = false ∧
     0 ≤ unmutedState.volume ∧ unmutedState.volume ≤ 1) ∧
    ((toggleMute (toggleMute unmutedState ⟨0, 7/10⟩).1
        (toggleMute unmutedState ⟨0, 7/10⟩).2).2.volume = unmutedState.volume ∧
     (toggleMute (toggleMute unmutedState ⟨0, 7/10⟩).1
        (toggleMute unmutedState ⟨0, 7/10⟩).2).1.isMuted = false) :=
  ⟨⟨rfl, by norm_num [unmutedState], by norm_num [unmutedState]⟩,
   toggleMute_roundtrip unmutedState ⟨0, 7/10⟩
     rfl (by norm_num [unmutedState]) (by norm_num [unmutedState])⟩

/-- C4: after `handleVolumeChange` on a 0–100 input, `isMuted` holds iff
the resulting volume is exactly 0: input 0 sets `isMuted`; any input > 0
clears it. -/
theorem setVolume_zero_iff_muted (value0 : Rat) (s : PlayerState) (e : AudioElem)
    (h0 : 0 ≤ value0) (h1 : value0 ≤ 100) :
    ((handleVolumeChange value0 s e).1.isMuted = true ↔
      (handleVolumeChange value0 s e).1.volume = 0) ∧
    (value0 = 0 → (handleVolumeChange value0 s e).1.isMuted = true) ∧
    (0 < value0 → (handleVolumeChange value0 s e).1.isMuted = false) := by
  have hdiv : value0 / 100 = 0 ↔ value0 = 0 := by
    constructor
    · intro h
      have := div_eq_zero_iff.mp h
      rcases this with h | h
      · exact h
      · exact absurd h (by norm_num)
    · intro h; rw [h]; norm_num
  refine ⟨?_, ?_, ?_⟩
  · simp [handleVolumeChange]
  · intro h; simp [handleVolumeChange, h]
  · intro h
    simp only [handleVolumeChange, decide_eq_false_iff_not]
    intro hc
    exact absurd (hdiv.mp hc) (ne_of_gt h)

/-- Witness for C4 at input 0 (mutes) and, inside the applied theorem,
the iff characterisation; a second application at input 30 shows a
positive input clears the flag. -/
theorem setVolume_zero_iff_muted_witness :
    ((0 : Rat) ≤ 0 ∧ (0 : Rat) ≤ 100 ∧ (0 : Rat) ≤ 30 ∧ (30 : Rat) ≤ 100) ∧
    (handleVolumeChange 0 unmutedState ⟨0, 7/10⟩).1.isMuted = true ∧
    (handleVolumeChange 30 unmutedState ⟨0, 7/10⟩).1.isMuted = false :=
  ⟨⟨by norm_num, by norm_num, by norm_num, by norm_num⟩,
   (setVolume_zero_iff_muted 0 unmutedState ⟨0, 7/10⟩
      (by norm_num) (by norm_num)).2.1 rfl,
   (setVolume_zero_iff_muted 30 unmutedState ⟨0, 7/10⟩
      (by norm_num) (by norm_num)).2.2 (by norm_num)⟩

/-- C5: the track-ended transition with repeat-one on fires no
track-change notification (the cursor, owned by the parent through
`onTrackChange`, is untouched), zeroes the element position, and produces
exactly the state of re-invoking `handlePlay` on the same track; with
repeat-one off it leaves component and element state alone and fires
exactly the notification `handleNext` computes. -/
theorem trackEnded_transition (playlist : List Track) (i : Nat)
    (s : PlayerState) (e : AudioElem) (res : PlayOutcome) (d : Nat) :
    (handleEnded playlist i s e res d).2.2 =
      (if s.isRepeat then none
       else handleNext playlist i s.isShuffle d) ∧
    (handleEnded playlist i s e res d).2.1.currentTime =
      (if s.isRepeat then 0 else e.currentTime) ∧
    (handleEnded playlist i s e res d).1 =
      (if s.isRepeat then handlePlay playlist i s res else s) := by
  cases hr : s.isRepeat <;> simp [handleEnded, hr]

/-- C8: `handleSeek` on a 0–100 fractional position sets both the
element position and the mirrored position state to
(value0 / 100) · duration, with no further inputs — the state update does
not await any element notification. -/
theorem seek_sets_position (value0 : Rat) (s : PlayerState) (e : AudioElem)
    (h0 : 0 ≤ value0) (h1 : value0 ≤ 100) :
    (handleSeek value0 s e).2.currentTime = value0 / 100 * s.duration ∧
    (handleSeek value0 s e).1.currentTime = value0 / 100 * s.duration := by
  constructor <;> rfl

/-- Witness for C8: seeking to 50 with duration 180 puts the position at
90 on both the element and the mirrored state. -/
theorem seek_sets_position_witness :
    ((0 : Rat) ≤ 50 ∧ (50 : Rat) ≤ 100) ∧
    ((handleSeek 50 unmutedState ⟨0, 7/10⟩).2.currentTime =
        50 / 100 * unmutedState.duration ∧
     (handleSeek 50 unmutedState ⟨0, 7/10⟩).1.currentTime =
        50 / 100 * unmutedState.duration) ∧
    (handleSeek 50 unmutedState ⟨0, 7/10⟩).1.currentTime = 90 :=
  ⟨⟨by norm_num, by norm_num⟩,
   seek_sets_position 50 unmutedState ⟨0, 7/10⟩ (by norm_num) (by norm_num),
   by norm_num [handleSeek, unmutedState]⟩

/-- The analysis node as the snapshot code sees it: `frequencyBinCount`
(`fftSize / 2`) and the magnitudes `getByteFrequencyData` would fill in
(supplied by the environment; the definition records that the snapshot is
read from the node, not synthesised). -/
structure AnalyserModel where
  frequencyBinCount : Nat
  frequencyData : List Nat

/-- The module-level singleton state of `src/lib/audio-utils.jsx`
(lines 8–12): `audioContext`, `analyserNode`, `sourceNode`, `gainNode`,
all initially null. -/
structure AudioUtilsState where
  audioContextExists : Bool
  analyserNode : Option AnalyserModel
  sourceNodeExists : Bool
  gainNodeExists : Bool

/-- The state of the module before any call: every singleton is null. -/
def audioUtilsNullState : AudioUtilsState :=
  { audioContextExists := false, analyserNode := none,
    sourceNodeExists := false, gainNodeExists := false }

/-- Embedding of `getAudioData` (`audio-utils.jsx` lines 53–61): with no analyser node
it returns `new Uint8Array(128)` (128 zero bytes); otherwise it reads
`frequencyBinCount` magnitudes from the node. -/
def getAudioData (st : AudioUtilsState) : List Nat :=
  match st.analyserNode with
  | none => List.replicate 128 0
  | some a => a.frequencyData.take a.frequencyBinCount

/-- C7: a snapshot taken in the pristine module state (before any set-up
or connect call) is the all-zero sequence of length 128; `getAudioData`
is a total function, so no error branch is observable. -/
theorem snapshot_uninitialized_all_zero :
    getAudioData audioUtilsNullState = List.replicate 128 0 ∧
    (getAudioData audioUtilsNullState).length = 128 ∧
    (getAudioData audioUtilsNullState).all (fun x => x == 0) = true := by
  have h : getAudioData audioUtilsNullState = List.replicate 128 0 := rfl
  refine ⟨h, ?_, ?_⟩
  · rw [h]; simp
  · rw [h]
    simp only [List.all_eq_true, List.mem_replicate]
    intro x hx
    simp [hx.2]

/-- The `App` component state slices relevant to playlist removal
(`src/App.jsx` lines 8–10): the playlist, the currently selected track
(or null), and the playing flag. -/
structure AppState where
  playlist : List Track
  currentTrack : Option Track
  isPlaying : Bool
deriving DecidableEq

/-- JS `Array.prototype.findIndex`: index of the first element satisfying
the predicate, or −1 when none does. -/
def jsFindIndex (p : Track → Bool) : List Track → Int
  | [] => -1
  | x :: xs =>
    if p x then 0
    else
      let r := jsFindIndex p xs
      if r < 0 then -1 else r + 1

/-- JS array indexing `l[i]` on a possibly negative index: any negative
index (and any index past the end) reads `undefined`. -/
def jsIndexGet (l : List Track) (i : Int) : Option Track :=
  if i < 0 then none else l[i.toNat]?

/-- Embedding of `handleRemoveTrack` (`src/App.jsx` lines 63–77): filters the removed
id out of the playlist; when the removed id is the selected track's id,
re-resolves the selection to `filtered[currentIndex] ||
filtered[currentIndex - 1] || null` (tracks are objects, hence truthy, so
`||` is `Option.orElse`) and stops playback. -/
def handleRemoveTrack (trackId : Nat) (s : AppState) : AppState :=
  let filtered := s.playlist.filter (fun track => track.id != trackId)
  if s.currentTrack.map Track.id = some trackId then
    let currentIndex := jsFindIndex (fun track => track.id == trackId) s.playlist
    let nextTrack :=
      (jsIndexGet filtered currentIndex).orElse
        (fun _ => jsIndexGet filtered (currentIndex - 1))
    { playlist := filtered, currentTrack := nextTrack, isPlaying := false }
  else
    { s with playlist := filtered }

/-- With pairwise-distinct ids, filtering out the id of the element at
index `i` deletes exactly that element. -/
theorem filter_ne_id_eq_eraseIdx (l : List Track) (i : Nat) (t : Track)
    (hnd : (l.map Track.id).Nodup) (ht : l[i]? = some t) :
    l.filter (fun x => x.id != t.id) = l.eraseIdx i := by
  induction l generalizing i with
  | nil => simp at ht
  | cons hd tl ih =>
    rw [List.map_cons, List.nodup_cons] at hnd
    cases i with
    | zero =>
      rw [List.getElem?_cons_zero] at ht
      injection ht with ht
      subst ht
      rw [List.eraseIdx_cons_zero, List.filter_cons_of_neg (by simp)]
      apply List.filter_eq_self.mpr
      intro a ha
      simp only [bne_iff_ne, ne_eq]
      intro hcontra
      exact hnd.1 (hcontra ▸ List.mem_map_of_mem Track.id ha)
    | succ j =>
      rw [List.getElem?_cons_succ] at ht
      have hne : (hd.id != t.id) = true := by
        simp only [bne_iff_ne, ne_eq]
        intro hcontra
        exact hnd.1
          (hcontra ▸ List.mem_map_of_mem Track.id (List.getElem?_mem ht))
      rw [List.eraseIdx_cons_succ, List.filter_cons, hne]
      simp only [if_true]
      rw [ih j hnd.2 ht]

/-- With pairwise-distinct ids, `findIndex` on the id of the element at
index `i` yields `i`. -/
theorem jsFindIndex_id_eq (l : List Track) (i : Nat) (t : Track)
    (hnd : (l.map Track.id).Nodup) (ht : l[i]? = some t) :
    jsFindIndex (fun x => x.id == t.id) l = (i : Int) := by
  induction l generalizing i with
  | nil => simp at ht
  | cons hd tl ih =>
    rw [List.map_cons, List.nodup_cons] at hnd
    cases i with
    | zero =>
      rw [List.getElem?_cons_zero] at ht
      injection ht with ht
      subst ht
      simp [jsFindIndex]
    | succ j =>
      rw [List.getElem?_cons_succ] at ht
      have hne : (hd.id == t.id) = false := by
        simp only [beq_eq_false_iff_ne, ne_eq]
        intro hcontra
        exact hnd.1
          (hcontra ▸ List.mem_map_of_mem Track.id (List.getElem?_mem ht))
      have hr := ih j hnd.2 ht
      simp only [jsFindIndex, hne, Bool.false_eq_true, if_false]
      rw [hr, if_neg (by omega)]
      omega

/-- Reading `jsIndexGet` at a natural-number index reads the list at that index. -/
theorem jsIndexGet_natCast (l : List Track) (n : Nat) :
    jsIndexGet l (n : Int) = l[n]? := by
  unfold jsIndexGet
  rw [if_neg (by omega), Int.toNat_natCast]

/-- C6: removing the currently selected track (all playlist ids distinct)
deletes exactly that element, stops playback, and re-resolves the
selection to the item that slides into the removed index; if nothing
slides in (the last element was removed), to the previous item; and to
"none" when the playlist becomes empty. -/
theorem removeTrack_current_reresolve (s : AppState) (ct : Track) (i : Nat)
    (hnd : (s.playlist.map Track.id).Nodup)
    (hcur : s.currentTrack = some ct)
    (hi : s.playlist[i]? = some ct) :
    (handleRemoveTrack ct.id s).playlist = s.playlist.eraseIdx i ∧
    (handleRemoveTrack ct.id s).currentTrack =
      (if i + 1 < s.playlist.length then s.playlist[i + 1]?
       else if 1 ≤ i then s.playlist[i - 1]? else none) ∧
    (handleRemoveTrack ct.id s).isPlaying = false := by
  have hfilt : s.playlist.filter (fun track => track.id != ct.id) =
      s.playlist.eraseIdx i := filter_ne_id_eq_eraseIdx s.playlist i ct hnd hi
  have hfind : jsFindIndex (fun track => track.id == ct.id) s.playlist = (i : Int) :=
    jsFindIndex_id_eq s.playlist i ct hnd hi
  have hcond : s.currentTrack.map Track.id = some ct.id := by rw [hcur]; rfl
  simp only [handleRemoveTrack, hcond, if_pos, hfilt, hfind]
  refine ⟨trivial, ?_, trivial⟩
  show ((jsIndexGet (s.playlist.eraseIdx i) (i : Int)).orElse
      (fun _ => jsIndexGet (s.playlist.eraseIdx i) ((i : Int) - 1))) = _
  rw [jsIndexGet_natCast, List.getElem?_eraseIdx_of_ge s.playlist i i le_rfl]
  by_cases hlt : i + 1 < s.playlist.length
  · obtain ⟨x, hx⟩ : ∃ x, s.playlist[i + 1]? = some x :=
      ⟨_, List.getElem?_eq_getElem hlt⟩
    rw [hx, if_pos hlt]
    rfl
  · rw [if_neg hlt]
    have hx : s.playlist[i + 1]? = none := List.getElem?_eq_none (by omega)
    rw [hx]
    show jsIndexGet (s.playlist.eraseIdx i) ((i : Int) - 1) = _
    cases i with
    | zero =>
      rw [if_neg (by omega)]
      unfold jsIndexGet
      rw [if_pos (by norm_num)]
    | succ j =>
      have hj1 : ((j + 1 : Nat) : Int) - 1 = (j : Int) := by omega
      rw [hj1, jsIndexGet_natCast,
        List.getElem?_eraseIdx_of_lt s.playlist (j + 1) j (by omega),
        if_pos (by omega)]
      norm_num

/-- A concrete 3-track app state selecting the middle track, used by
witnesses. -/
def appMid : AppState :=
  { playlist := samplePlaylist, currentTrack := some ⟨1, "b"⟩, isPlaying := true }

/-- Witness for C6, covering the three concrete scenarios: removing the
selected index 1 of 3 selects the old index 2; removing the selected last
item selects the new last item; removing the sole item selects none. -/
theorem removeTrack_current_reresolve_witness :
    ((samplePlaylist.map Track.id).Nodup ∧
     appMid.currentTrack = some ⟨1, "b"⟩ ∧
     samplePlaylist[1]? = some ⟨1, "b"⟩) ∧
    ((handleRemoveTrack 1 appMid).playlist = samplePlaylist.eraseIdx 1 ∧
     (handleRemoveTrack 1 appMid).currentTrack =
       (if 1 + 1 < samplePlaylist.length then samplePlaylist[1 + 1]?
        else if 1 ≤ 1 then samplePlaylist[1 - 1]? else none) ∧
     (handleRemoveTrack 1 appMid).isPlaying = false) ∧
    (handleRemoveTrack 1 appMid).currentTrack = some ⟨2, "c"⟩ ∧
    (handleRemoveTrack 2
        { playlist := samplePlaylist, currentTrack := some ⟨2, "c"⟩,
          isPlaying := true }).currentTrack = some ⟨1, "b"⟩ ∧
    (handleRemoveTrack 0
        { playlist := [⟨0, "a"⟩], currentTrack := some ⟨0, "a"⟩,
          isPlaying := true }).currentTrack = none :=
  ⟨⟨by decide, rfl, rfl⟩,
   removeTrack_current_reresolve appMid ⟨1, "b"⟩ 1 (by decide) rfl rfl,
   by decide, by decide, by decide⟩

/-- C10: removing a track whose id differs from the selected track's id
(ids distinct, removed track present at index j) leaves the selection and
the playing flag unchanged and deletes exactly that one element,
preserving the order of the rest. -/
theorem removeTrack_other_frame (s : AppState) (ct t : Track) (j : Nat)
    (hnd : (s.playlist.map Track.id).Nodup)
    (hcur : s.currentTrack = some ct)
    (hne : ct.id ≠ t.id)
    (hj : s.playlist[j]? = some t) :
    (handleRemoveTrack t.id s).currentTrack = s.currentTrack ∧
    (handleRemoveTrack t.id s).isPlaying = s.isPlaying ∧
    (handleRemoveTrack t.id s).playlist = s.playlist.eraseIdx j := by
  have hfilt : s.playlist.filter (fun track => track.id != t.id) =
      s.playlist.eraseIdx j := filter_ne_id_eq_eraseIdx s.playlist j t hnd hj
  have hcond : ¬(s.currentTrack.map Track.id = some t.id) := by
    rw [hcur]
    intro hcontra
    exact hne (by simpa using hcontra)
  simp only [handleRemoveTrack]
  rw [if_neg hcond]
  exact ⟨rfl, rfl, hfilt⟩

/-- Witness for C10: removing the last track while the first is selected
leaves selection and playing flag alone and drops exactly that element. -/
theorem removeTrack_other_frame_witness :
    ((samplePlaylist.map Track.id).Nodup ∧
     ({ playlist := samplePlaylist, currentTrack := some ⟨0, "a"⟩,
        isPlaying := true } : AppState).currentTrack = some ⟨0, "a"⟩ ∧
     (⟨0, "a"⟩ : Track).id ≠ (⟨2, "c"⟩ : Track).id ∧
     samplePlaylist[2]? = some ⟨2, "c"⟩) ∧
    ((handleRemoveTrack 2
        { playlist := samplePlaylist, currentTrack := some ⟨0, "a"⟩,
          isPlaying := true }).currentTrack =
       ({ playlist := samplePlaylist, currentTrack := some ⟨0, "a"⟩,
          isPlaying := true } : AppState).currentTrack ∧
     (handleRemoveTrack 2
        { playlist := samplePlaylist, currentTrack := some ⟨0, "a"⟩,
          isPlaying := true }).isPlaying =
       ({ playlist := samplePlaylist, currentTrack := some ⟨0, "a"⟩,
          isPlaying := true } : AppState).isPlaying ∧
     (handleRemoveTrack 2
        { playlist := samplePlaylist, currentTrack := some ⟨0, "a"⟩,
          isPlaying := true }).playlist = samplePlaylist.eraseIdx 2) :=
  ⟨⟨by decide, rfl, by decide, rfl⟩,
   removeTrack_other_frame
     { playlist := samplePlaylist, currentTrack := some ⟨0, "a"⟩,
       isPlaying := true }
     ⟨0, "a"⟩ ⟨2, "c"⟩ 2 (by decide) rfl (by decide) rfl⟩
